import Mathlib

/-!
Verification of the `go_attestation_doc` repository: a shallow embedding of
the enclave-side attestation server (`src/enclave/main.go`), the CLI-mode
server (`src/unnamed/part_001`) and the host client (`src/host/client.go`),
together with theorems settling the specification's claims.

Bytes are modelled as `Nat` values (each `< 256` where the source guarantees
it); byte buffers as `List Nat`.  External library calls of the Go runtime
(file I/O, JSON marshalling, base64, PEM, subprocess execution) are modelled
as oracles supplied in an environment record: the repository's own control
flow and data handling are translated faithfully from the source.
-/

set_option autoImplicit false

/-! ## Constants (src/enclave/main.go lines 22-34) -/

/-- `maxMessageSize = 16384` — capacity of the `DocumentData` buffer. -/
def maxMessageSize : Nat := 16384

/-- `nsmCmdGetAttestationDoc = 0x20` — message type of the request frame. -/
def nsmCmdGetAttestationDoc : Nat := 0x20

/-! ## Binary device codec (src/enclave/main.go lines 52-76 and 127-180)

The Go code serializes `nsmRequestHeader` and `attestationDocRequest` with
`binary.Write(..., binary.LittleEndian, ...)`, which lays out every `uint32`
field in little-endian order and the `[64]byte` nonce verbatim. -/

/-- Little-endian serialization of a `uint32` field, as performed by
`binary.Write` with `binary.LittleEndian`. -/
def u32LE (n : Nat) : List Nat :=
  [n % 256, n / 256 % 256, n / 65536 % 256, n / 16777216 % 256]

/-- Little-endian read of a `uint32` field from the head of a byte stream,
as performed by `binary.Read` with `binary.LittleEndian`. -/
def readU32LE : List Nat → Nat
  | b0 :: b1 :: b2 :: b3 :: _ => b0 + 256 * b1 + 65536 * b2 + 16777216 * b3
  | _ => 0

/-- The `Nonce [64]byte` field of `attestationDocRequest` after
`copy(request.Nonce[:], []byte(nonceStr))` (main.go lines 128-134): the Go
array starts zero-initialized, `copy` writes `min 64 (length nonce)` bytes,
and the `copy` is skipped entirely for an empty nonce. -/
def requestNonceField (nonce : List Nat) : List Nat :=
  if nonce.isEmpty then List.replicate 64 0
  else nonce.take 64 ++ List.replicate (64 - nonce.length) 0

/-- `unsafe.Sizeof(request)` for `attestationDocRequest{Version uint32;
Nonce [64]byte}`: 4 + 64 = 68 bytes, with no alignment padding (the maximal
field alignment is 4 and 68 is divisible by 4).  Used as `MessageLen`. -/
def attestationDocRequestSize : Nat := 68

/-- The serialized `attestationDocRequest` body: `Version = 1` followed by
the 64-byte nonce field (main.go lines 128-134, 147). -/
def attestationDocRequestBytes (nonce : List Nat) : List Nat :=
  u32LE 1 ++ requestNonceField nonce

/-- The full request frame written to the device: `nsmRequestHeader`
(`MessageType = nsmCmdGetAttestationDoc`, `MessageLen = sizeof(request)`)
followed by the request body (main.go lines 136-149). -/
def encodeRequest (nonce : List Nat) : List Nat :=
  u32LE nsmCmdGetAttestationDoc ++ u32LE attestationDocRequestSize ++
    attestationDocRequestBytes nonce

/-- A parsed view of a request frame, following the fixed layout of
`nsmRequestHeader` + `attestationDocRequest`: `messageType` at offset 0,
`messageLen` at offset 4, `version` at offset 8, the 64-byte nonce at
offset 12, for a total of 76 bytes. -/
structure RequestFrame where
  messageType : Nat
  messageLen : Nat
  version : Nat
  nonce : List Nat
deriving DecidableEq

/-- Parse a request frame back from its wire bytes, reading each field at
the offset fixed by the struct layout used in main.go. -/
def parseRequestFrame (bs : List Nat) : Option RequestFrame :=
  if bs.length = 8 + attestationDocRequestSize then
    some ⟨readU32LE bs, readU32LE (bs.drop 4), readU32LE (bs.drop 8),
          (bs.drop 12).take 64⟩
  else none

/-- The decoded `attestationDocResponse` struct (main.go lines 71-76), as
populated by `binary.Read`: `DocumentData` always holds the full
16384-byte buffer read from the wire. -/
structure AttestationDocResponse where
  Version : Nat
  Status : Nat
  DocumentLen : Nat
  DocumentData : List Nat
deriving DecidableEq

/-- Outcome of the post-`binary.Read` processing of a response frame. -/
inductive DirectOutcome
  /-- The Go expression `response.DocumentData[:response.DocumentLen]`
  raised a slice-bounds runtime panic. -/
  | panicked
  /-- `response.Status != 0`: the error return of main.go line 170,
  carrying the status value. -/
  | deviceError (status : Nat)
  /-- The document bytes `DocumentData[:DocumentLen]`. -/
  | ok (doc : List Nat)
deriving DecidableEq

/-- Post-processing of a decoded response frame (main.go lines 168-174):
the status check of line 169 runs first; then the code slices
`response.DocumentData[:response.DocumentLen]` with no bounds check, so a
`DocumentLen` above the 16384-byte capacity is a slice-bounds panic in Go,
modelled as `DirectOutcome.panicked`. -/
def decodeResponse (r : AttestationDocResponse) : DirectOutcome :=
  if r.Status ≠ 0 then .deviceError r.Status
  else if r.DocumentLen ≤ maxMessageSize then .ok (r.DocumentData.take r.DocumentLen)
  else .panicked

/-! ## Helper lemmas for the codec -/

theorem requestNonceField_eq_pad (nonce : List Nat) (h : nonce.length ≤ 64) :
    requestNonceField nonce = nonce ++ List.replicate (64 - nonce.length) 0 := by
  unfold requestNonceField
  by_cases he : nonce.isEmpty
  · simp [he, List.isEmpty_iff.mp he]
  · simp [he, List.take_of_length_le h]

theorem requestNonceField_eq_take (nonce : List Nat) (h : 64 < nonce.length) :
    requestNonceField nonce = nonce.take 64 := by
  unfold requestNonceField
  have he : ¬ nonce.isEmpty := by
    cases nonce with
    | nil => simp at h
    | cons a t => simp
  have hz : 64 - nonce.length = 0 := by omega
  simp [he, hz]

theorem requestNonceField_length (nonce : List Nat) :
    (requestNonceField nonce).length = 64 := by
  unfold requestNonceField
  by_cases he : nonce.isEmpty
  · simp [he]
  · simp [he]
    omega

theorem parseRequestFrame_encodeRequest (nonce : List Nat) :
    parseRequestFrame (encodeRequest nonce) =
      some ⟨nsmCmdGetAttestationDoc, attestationDocRequestSize, 1,
            requestNonceField nonce⟩ := by
  have hlen : (requestNonceField nonce).length = 64 :=
    requestNonceField_length nonce
  have hexp : encodeRequest nonce =
      32 :: 0 :: 0 :: 0 :: 68 :: 0 :: 0 :: 0 :: 1 :: 0 :: 0 :: 0 ::
        requestNonceField nonce := by
    simp [encodeRequest, attestationDocRequestBytes, u32LE,
          nsmCmdGetAttestationDoc, attestationDocRequestSize]
  rw [hexp]
  simp [parseRequestFrame, readU32LE, hlen, attestationDocRequestSize,
        nsmCmdGetAttestationDoc, List.take_of_length_le (le_of_eq hlen)]

/-! ## Attestation acquirer (src/enclave/main.go lines 84-180)

The device, the `nsm-cli` subprocess and the Go standard library calls are
external collaborators, modelled as oracles in `AcqEnv`; the repository's
control flow is translated line by line. -/

/-- The result of a Go `(string, error)` returning function, with a third
constructor for a runtime panic. -/
inductive GoResult (α : Type)
  | ok (a : α)
  | err (msg : String)
  | panicked
deriving DecidableEq

/-- UTF-8 bytes of a Go string, as in the conversion `[]byte(nonceStr)`. -/
def strBytes (s : String) : List Nat :=
  s.toUTF8.toList.map UInt8.toNat

/-- Environment of external effects for the acquirer. -/
structure AcqEnv where
  /-- Whether `exec.LookPath("nsm-cli")` succeeds (main.go line 87). -/
  cliFound : Bool
  /-- `cmd.Output()` for the given argument list (main.go line 101). -/
  cliOutput : List String → Except String String
  /-- `json.Unmarshal` of the CLI output, extracting `attestation_doc`
  (main.go lines 107-113). -/
  cliUnmarshal : String → Except String String
  /-- Whether `os.OpenFile(nsmDevicePath, os.O_RDWR, 0)` succeeds. -/
  deviceOpenOk : Bool
  /-- Whether `nsmDevice.Write(reqBuf.Bytes())` succeeds. -/
  deviceWriteOk : Bool
  /-- Whether `binary.Read` of the response header succeeds. -/
  readHeaderOk : Bool
  /-- Whether `binary.Read` of the response body succeeds. -/
  readBodyOk : Bool
  /-- The `attestationDocResponse` the device delivers for a written
  request frame (main.go lines 163-166). -/
  deviceRespond : List Nat → AttestationDocResponse
  /-- `base64.StdEncoding.EncodeToString` (main.go line 177). -/
  b64Encode : List Nat → String

/-- `getSignedAttestationDocDirect` (main.go lines 119-180): open the
device, write the encoded request frame, read the response header and body,
check the status, slice the document and base64-encode it. -/
def getSignedAttestationDocDirect (env : AcqEnv) (nonceStr : String) :
    GoResult String :=
  if !env.deviceOpenOk then .err "无法打开 NSM 设备"
  else if !env.deviceWriteOk then .err "发送请求失败"
  else if !env.readHeaderOk then .err "读取响应头失败"
  else if !env.readBodyOk then .err "读取响应体失败"
  else
    match decodeResponse (env.deviceRespond (encodeRequest (strBytes nonceStr))) with
    | .deviceError s => .err ("NSM 返回错误状态: " ++ Nat.repr s)
    | .ok doc => .ok (env.b64Encode doc)
    | .panicked => .panicked

/-- `getSignedAttestationDocWithCLI` (main.go lines 85-116): when
`nsm-cli` cannot be located the function returns
`getSignedAttestationDocDirect(nonce)` directly (lines 87-91); otherwise it
invokes the helper and parses the `attestation_doc` field of its output. -/
def getSignedAttestationDocWithCLI (env : AcqEnv) (nonce : String) :
    GoResult String :=
  if !env.cliFound then getSignedAttestationDocDirect env nonce
  else
    let args := if nonce = "" then ["describe-attestation-doc", "--json"]
                else ["describe-attestation-doc", "--json", "--nonce", nonce]
    match env.cliOutput args with
    | .error e => .err ("执行 nsm-cli 失败: " ++ e)
    | .ok output =>
      match env.cliUnmarshal output with
      | .error e => .err ("解析 nsm-cli 输出失败: " ++ e)
      | .ok doc => .ok doc

/-! ## Session protocol handler (src/enclave/main.go lines 215-319) -/

/-- The `CommandArgs` wire shape (main.go lines 37-42). -/
structure CommandArgs where
  UseCLI : Bool
  Nonce : String
  OutputFile : String
  Parse : Bool
deriving DecidableEq

/-- The decoded mapping produced by `json.Unmarshal` of a parsed document
(main.go lines 199-213), kept abstract as an association list. -/
abbrev ParsedDoc := List (String × String)

/-- The `Response` wire shape (main.go lines 45-50). -/
structure Response where
  Success : Bool
  ErrorMessage : String
  Document : String
  ParsedDoc : Option ParsedDoc
deriving DecidableEq

/-- The response constructed by `sendErrorResponse` (main.go lines 303-319). -/
def sendErrorResponse (msg : String) : Response :=
  { Success := false, ErrorMessage := msg, Document := "", ParsedDoc := none }

/-- Environment of external effects for one `handleClient` session. -/
structure SrvEnv where
  /-- The acquirer's environment. -/
  acq : AcqEnv
  /-- `conn.Read(buffer)`: the bytes `buffer[:n]` actually read, or the
  read error (main.go lines 222-223). -/
  readResult : Except String (List Nat)
  /-- `json.Unmarshal(buffer[:n], &args)` (main.go line 232). -/
  unmarshalArgs : List Nat → Except String CommandArgs
  /-- `saveAttestationDoc(document, filename)` (main.go lines 183-196),
  covering both the base64 decode and the `os.WriteFile`. -/
  saveDoc : String → String → Except String Unit
  /-- `parseAttestationDoc(document)` (main.go lines 199-213). -/
  parseDoc : String → Except String ParsedDoc

/-- Everything observable about one finished session. -/
structure SessionOutcome where
  /-- The responses written to the connection, in order. -/
  sent : List Response
  /-- Whether the connection was closed (the deferred `conn.Close()`). -/
  closed : Bool
  /-- Whether the handler goroutine panicked. -/
  crashed : Bool
  /-- `some true` / `some false` when a save to `OutputFile` was attempted
  and succeeded / failed; `none` when no save was attempted. -/
  saved : Option Bool
deriving DecidableEq

/-- Strategy dispatch of main.go lines 242-249. -/
def acquire (acq : AcqEnv) (args : CommandArgs) : GoResult String :=
  if args.UseCLI then getSignedAttestationDocWithCLI acq args.Nonce
  else getSignedAttestationDocDirect acq args.Nonce

/-- `handleClient` (main.go lines 216-300): read the request, parse it,
acquire the document, best-effort save and parse, send one response.  Save
and parse failures are logged and ignored (lines 261-267, 277-284): the
success response is still sent.  A failed read or parse sends an error
response (lines 224-236).  `defer conn.Close()` closes the connection on
every path. -/
def handleClient (env : SrvEnv) : SessionOutcome :=
  match env.readResult with
  | .error e =>
    ⟨[sendErrorResponse ("读取客户端数据失败: " ++ e)], true, false, none⟩
  | .ok bs =>
    match env.unmarshalArgs bs with
    | .error e =>
      ⟨[sendErrorResponse ("解析参数失败: " ++ e)], true, false, none⟩
    | .ok args =>
      match acquire env.acq args with
      | .panicked => ⟨[], true, true, none⟩
      | .err e =>
        ⟨[sendErrorResponse ("获取证明文档失败: " ++ e)], true, false, none⟩
      | .ok document =>
        let saved : Option Bool :=
          if args.OutputFile ≠ "" then
            match env.saveDoc document args.OutputFile with
            | .ok _ => some true
            | .error _ => some false
          else none
        let parsed : Option ParsedDoc :=
          if args.Parse then
            match env.parseDoc document with
            | .ok p => some p
            | .error _ => none
          else none
        ⟨[{ Success := true, ErrorMessage := "", Document := document,
            ParsedDoc := parsed }], true, false, saved⟩

/-! ## CLI-mode server (src/unnamed/part_001) -/

namespace CliServer

/-- The extended `CommandArgs` wire shape (part_001 lines 22-26). -/
structure CliArgs where
  UserData : String
  PublicKey : String
  Nonce : String
deriving DecidableEq

/-- The `Response` wire shape (part_001 lines 29-33). -/
structure CliResponse where
  Success : Bool
  ErrorMessage : String
  Document : String
deriving DecidableEq

/-- Environment of external effects for one CLI-server session. -/
structure CliSrvEnv where
  /-- `conn.Read(buffer)` (part_001 lines 41-42). -/
  readResult : Except String (List Nat)
  /-- `json.Unmarshal(buffer[:n], &args)` (part_001 line 51). -/
  unmarshalArgs : List Nat → Except String CliArgs
  /-- `os.CreateTemp("", "pubkey-*.der")`: the path of the created file,
  or the creation error (part_001 line 67). -/
  tmpCreate : Except String String
  /-- `base64.StdEncoding.DecodeString` (part_001 line 76). -/
  b64Decode : String → Except String (List Nat)
  /-- Whether `tmpFile.Write(pubKeyData)` succeeds (part_001 line 83). -/
  tmpWriteOk : Bool
  /-- Whether `tmpFile.Close()` succeeds (part_001 line 89). -/
  tmpCloseOk : Bool
  /-- `exec.Command("nsm-cli", cmdArgs...).CombinedOutput()`
  (part_001 lines 105-106). -/
  runNsmCli : List String → Except String String

/-- Everything observable about one finished CLI-server session. -/
structure CliOutcome where
  /-- The responses written to the connection, in order. -/
  sent : List CliResponse
  /-- Whether the connection was closed (deferred `conn.Close()`). -/
  closed : Bool
  /-- The argument list `nsm-cli` was invoked with, when it was invoked. -/
  invoked : Option (List String)
  /-- The path of the temporary public-key file, when one was created. -/
  tmpCreated : Option String
  /-- The path removed by the deferred `os.Remove(tmpFile.Name())`
  (part_001 line 73), which runs on every exit path after creation. -/
  tmpRemoved : Option String
deriving DecidableEq

/-- The response constructed by `sendErrorResponse` (part_001
lines 137-153). -/
def errResponse (msg : String) : CliResponse :=
  { Success := false, ErrorMessage := msg, Document := "" }

/-- The `--nonce` argument appended when `args.Nonce != ""`
(part_001 lines 98-101). -/
def withNonce (args : CliArgs) (cmdArgs : List String) : List String :=
  if args.Nonce ≠ "" then cmdArgs ++ ["--nonce", args.Nonce] else cmdArgs

/-- The `--user-data` argument appended when `args.UserData != ""`
(part_001 lines 60-63). -/
def withUserData (args : CliArgs) (cmdArgs : List String) : List String :=
  if args.UserData ≠ "" then cmdArgs ++ ["--user-data", args.UserData]
  else cmdArgs

/-- Run `nsm-cli` and send the final response (part_001 lines 103-133);
`created`/`removed` record the temporary-file state carried to the exit. -/
def runAttest (env : CliSrvEnv) (cmdArgs : List String)
    (created removed : Option String) : CliOutcome :=
  match env.runNsmCli cmdArgs with
  | .error e =>
    ⟨[errResponse ("执行 nsm-cli attest 失败: " ++ e)], true, some cmdArgs,
     created, removed⟩
  | .ok output =>
    ⟨[{ Success := true, ErrorMessage := "", Document := output }], true,
     some cmdArgs, created, removed⟩

/-- `handleClient` of the CLI-mode server (part_001 lines 36-134): read and
parse the request; when a public key is present, create a temporary file,
base64-decode the key, write it, close the file and pass its path via
`--public-key`; the deferred `os.Remove` deletes the file on every exit
path after creation, whether `nsm-cli` succeeds or fails. -/
def handleClient (env : CliSrvEnv) : CliOutcome :=
  match env.readResult with
  | .error e => ⟨[errResponse ("读取客户端数据失败: " ++ e)], true, none, none, none⟩
  | .ok bs =>
    match env.unmarshalArgs bs with
    | .error e => ⟨[errResponse ("解析参数失败: " ++ e)], true, none, none, none⟩
    | .ok args =>
      let base := withUserData args ["attest"]
      if args.PublicKey ≠ "" then
        match env.tmpCreate with
        | .error e =>
          ⟨[errResponse ("创建临时公钥文件失败: " ++ e)], true, none, none, none⟩
        | .ok path =>
          match env.b64Decode args.PublicKey with
          | .error e =>
            ⟨[errResponse ("解码公钥失败: " ++ e)], true, none, some path, some path⟩
          | .ok _ =>
            if !env.tmpWriteOk then
              ⟨[errResponse "写入公钥文件失败"], true, none, some path, some path⟩
            else if !env.tmpCloseOk then
              ⟨[errResponse "关闭公钥文件失败"], true, none, some path, some path⟩
            else
              runAttest env (withNonce args (base ++ ["--public-key", path]))
                (some path) (some path)
      else
        runAttest env (withNonce args base) none none

end CliServer

/-! ## Host client public-key handling (src/host/client.go lines 73-96) -/

/-- The bytes of the PEM armor marker `-----BEGIN PUBLIC KEY-----` that
`strings.Contains` searches for (client.go line 83). -/
def pemHeaderBytes : List Nat :=
  (String.toList "-----BEGIN PUBLIC KEY-----").map Char.toNat

/-- `strings.Contains`: whether `needle` occurs as a contiguous run of
`hay`. -/
def containsSub (needle hay : List Nat) : Bool :=
  match hay with
  | [] => needle.isEmpty
  | _ :: t => needle.isPrefixOf hay || containsSub needle t

/-- Environment of external effects for the client's key handling. -/
structure ClientEnv where
  /-- `pem.Decode(pkData)`: the DER bytes of the first PEM block, or
  `none` when no block parses (client.go line 85). -/
  pemDecode : List Nat → Option (List Nat)
  /-- `base64.StdEncoding.EncodeToString` (client.go lines 91 and 94). -/
  b64Encode : List Nat → String

/-- The `public_key` wire value computed by the client's `main`
(client.go lines 73-96) from the key file's content: a PEM-armored file is
decoded to its DER block bytes and those are base64-encoded; any other
content is base64-encoded directly.  A failing `pem.Decode` is
`log.Fatalf`, modelled as `GoResult.err`. -/
def clientPublicKeyContent (env : ClientEnv) (pkData : List Nat) :
    GoResult String :=
  if containsSub pemHeaderBytes pkData then
    match env.pemDecode pkData with
    | none => .err "解析 PEM 格式公钥失败"
    | some der => .ok (env.b64Encode der)
  else .ok (env.b64Encode pkData)

/-! ## Concrete sample environments used by the witnesses -/

/-- Device delivers a status-3 failure frame; `nsm-cli` is absent. -/
def acqEnvStatus3 : AcqEnv :=
  { cliFound := false
    cliOutput := fun _ => .error "not run"
    cliUnmarshal := fun _ => .error "not run"
    deviceOpenOk := true
    deviceWriteOk := true
    readHeaderOk := true
    readBodyOk := true
    deviceRespond := fun _ => ⟨1, 3, 0, List.replicate 16384 0⟩
    b64Encode := fun _ => "" }

/-- Device delivers `status = 0`, `documentLen = 5`, `"hello"` followed by
non-zero garbage padding. -/
def acqEnvHello : AcqEnv :=
  { cliFound := false
    cliOutput := fun _ => .error "not run"
    cliUnmarshal := fun _ => .error "not run"
    deviceOpenOk := true
    deviceWriteOk := true
    readHeaderOk := true
    readBodyOk := true
    deviceRespond := fun _ =>
      ⟨1, 0, 5, [104, 101, 108, 108, 111] ++ List.replicate 16379 9⟩
    b64Encode := fun _ => "aGVsbG8=" }

/-- A session whose inbound bytes do not deserialize as `CommandArgs`. -/
def srvEnvBadJson : SrvEnv :=
  { acq := acqEnvStatus3
    readResult := .ok [123]
    unmarshalArgs := fun _ => .error "unexpected end of JSON input"
    saveDoc := fun _ _ => .ok ()
    parseDoc := fun _ => .error "not json" }

/-- A session whose acquisition succeeds but whose output write and
document parse both fail. -/
def srvEnvDegraded : SrvEnv :=
  { acq := acqEnvHello
    readResult := .ok [123, 125]
    unmarshalArgs := fun _ => .ok ⟨false, "abc", "out.bin", true⟩
    saveDoc := fun _ _ => .error "disk full"
    parseDoc := fun _ => .error "invalid character" }

/-- A session whose initial read yields zero bytes: the peer closed the
connection, so `conn.Read` returns `0, io.EOF`. -/
def srvEnvEOF : SrvEnv :=
  { acq := acqEnvStatus3
    readResult := .error "EOF"
    unmarshalArgs := fun _ => .error "unused"
    saveDoc := fun _ _ => .ok ()
    parseDoc := fun _ => .error "unused" }

/-- A CLI-server session carrying user data, a public key and a nonce,
whose `nsm-cli` subprocess fails. -/
def cliEnvSample : CliServer.CliSrvEnv :=
  { readResult := .ok [123]
    unmarshalArgs := fun _ => .ok ⟨"ud", "QUJD", "n1"⟩
    tmpCreate := .ok "/tmp/pubkey-123.der"
    b64Decode := fun _ => .ok [65, 66, 67]
    tmpWriteOk := true
    tmpCloseOk := true
    runNsmCli := fun _ => .error "exit status 1" }

/-- A client environment whose PEM decoder returns the DER block
`[48, 49]`. -/
def clientEnvSample : ClientEnv :=
  { pemDecode := fun _ => some [48, 49]
    b64Encode := fun _ => "MDE=" }

/-! ## Claim theorems -/

/-- C1 (code bug): the spec requires `documentLen > 16384` to yield a
`ProtocolDecodeError`, but the code slices
`response.DocumentData[:response.DocumentLen]` with no bounds check, so a
frame with `documentLen = 16385` and `status = 0` is a slice-bounds panic
(`DirectOutcome.panicked`), not an error return.  The second conjunct
records the half of the claim the code does satisfy: for
`documentLen = 5 ≤ 16384` exactly the first five bytes are returned, the
non-zero garbage padding being ignored. -/
theorem c1_document_len_bounds :
    decodeResponse ⟨1, 0, 16385, List.replicate maxMessageSize 0⟩ = .panicked ∧
    decodeResponse ⟨1, 0, 5, [104, 101, 108, 108, 111] ++ List.replicate 16379 9⟩ =
      .ok [104, 101, 108, 108, 111] :=
  ⟨rfl, rfl⟩

/-- C2: a decoded response frame with `status != 0` yields the device
error carrying that status value, and `getSignedAttestationDocDirect`
returns only the rendered device error — no `documentData` byte reaches
the caller. -/
theorem c2_status_nonzero_device_error (env : AcqEnv) (nonce : String)
    (h1 : env.deviceOpenOk = true) (h2 : env.deviceWriteOk = true)
    (h3 : env.readHeaderOk = true) (h4 : env.readBodyOk = true)
    (h5 : (env.deviceRespond (encodeRequest (strBytes nonce))).Status ≠ 0) :
    decodeResponse (env.deviceRespond (encodeRequest (strBytes nonce))) =
      .deviceError (env.deviceRespond (encodeRequest (strBytes nonce))).Status ∧
    getSignedAttestationDocDirect env nonce =
      .err ("NSM 返回错误状态: " ++
        Nat.repr (env.deviceRespond (encodeRequest (strBytes nonce))).Status) := by
  have hd : decodeResponse (env.deviceRespond (encodeRequest (strBytes nonce))) =
      .deviceError (env.deviceRespond (encodeRequest (strBytes nonce))).Status := by
    simp [decodeResponse, h5]
  refine ⟨hd, ?_⟩
  simp [getSignedAttestationDocDirect, h1, h2, h3, h4, hd]

/-- C2 witness: the status-3 sample environment. -/
theorem c2_witness :
    decodeResponse (acqEnvStatus3.deviceRespond (encodeRequest (strBytes "abc"))) =
      .deviceError 3 ∧
    getSignedAttestationDocDirect acqEnvStatus3 "abc" =
      .err ("NSM 返回错误状态: " ++ Nat.repr 3) :=
  c2_status_nonzero_device_error acqEnvStatus3 "abc" rfl rfl rfl rfl (by decide)

/-- C3: for every nonce of at most 64 bytes, the encoded request frame
parses back to `messageType = 0x20`, `version = 1`, a nonce field equal to
the input zero-padded on the right to 64 bytes, and a `messageLen` equal
to the exact byte size of the body that follows (68 bytes), all fields
little-endian. -/
theorem c3_encode_roundtrip (nonce : List Nat) (h : nonce.length ≤ 64) :
    parseRequestFrame (encodeRequest nonce) =
      some ⟨nsmCmdGetAttestationDoc, attestationDocRequestSize, 1,
            nonce ++ List.replicate (64 - nonce.length) 0⟩ ∧
    (attestationDocRequestBytes nonce).length = attestationDocRequestSize := by
  refine ⟨?_, ?_⟩
  · rw [parseRequestFrame_encodeRequest, requestNonceField_eq_pad nonce h]
  · simp [attestationDocRequestBytes, u32LE, requestNonceField_length,
          attestationDocRequestSize]

/-- C3 witness: the 3-byte nonce `[1, 2, 3]`. -/
theorem c3_witness :
    parseRequestFrame (encodeRequest [1, 2, 3]) =
      some ⟨nsmCmdGetAttestationDoc, attestationDocRequestSize, 1,
            [1, 2, 3] ++ List.replicate 61 0⟩ ∧
    (attestationDocRequestBytes [1, 2, 3]).length = attestationDocRequestSize :=
  c3_encode_roundtrip [1, 2, 3] (by decide)

/-- C4: when `nsm-cli` cannot be located, `getSignedAttestationDocWithCLI`
returns `getSignedAttestationDocDirect` on the same environment and nonce:
the fallback produces exactly the result of an explicit direct-device
request with identical parameters. -/
theorem c4_cli_fallback (env : AcqEnv) (nonce : String)
    (h : env.cliFound = false) :
    getSignedAttestationDocWithCLI env nonce =
      getSignedAttestationDocDirect env nonce := by
  simp [getSignedAttestationDocWithCLI, h]

/-- C4 witness: the status-3 sample environment, where `nsm-cli` is
absent. -/
theorem c4_witness :
    getSignedAttestationDocWithCLI acqEnvStatus3 "x" =
      getSignedAttestationDocDirect acqEnvStatus3 "x" :=
  c4_cli_fallback acqEnvStatus3 "x" rfl

/-- C5: when the received bytes do not deserialize as `CommandArgs`, the
handler writes exactly one response with `Success = false` and an error
message describing the parse failure, closes the connection and does not
crash. -/
theorem c5_parse_failure_response (env : SrvEnv) (bs : List Nat) (e : String)
    (h1 : env.readResult = .ok bs)
    (h2 : env.unmarshalArgs bs = .error e) :
    handleClient env =
      ⟨[sendErrorResponse ("解析参数失败: " ++ e)], true, false, none⟩ := by
  simp [handleClient, h1, h2]

/-- C5 witness: the malformed-JSON sample session. -/
theorem c5_witness :
    handleClient srvEnvBadJson =
      ⟨[sendErrorResponse ("解析参数失败: " ++ "unexpected end of JSON input")],
       true, false, none⟩ :=
  c5_parse_failure_response srvEnvBadJson [123] "unexpected end of JSON input"
    rfl rfl

/-- C6: when acquisition succeeds but both the write to `OutputFile` and
the document parse fail, the handler still sends `Success = true` with the
base64 document, degrading to a document-only response (`ParsedDoc = none`,
`saved = some false`). -/
theorem c6_postprocessing_failures (env : SrvEnv) (bs : List Nat)
    (args : CommandArgs) (document se pe : String)
    (h1 : env.readResult = .ok bs)
    (h2 : env.unmarshalArgs bs = .ok args)
    (h3 : acquire env.acq args = .ok document)
    (h4 : args.OutputFile ≠ "")
    (h5 : env.saveDoc document args.OutputFile = .error se)
    (h6 : args.Parse = true)
    (h7 : env.parseDoc document = .error pe) :
    handleClient env =
      ⟨[{ Success := true, ErrorMessage := "", Document := document,
          ParsedDoc := none }], true, false, some false⟩ := by
  simp [handleClient, h1, h2, h3, h4, h5, h6, h7]

/-- C6 witness: the degraded sample session (save fails with "disk full",
parse fails with "invalid character"). -/
theorem c6_witness :
    handleClient srvEnvDegraded =
      ⟨[{ Success := true, ErrorMessage := "", Document := "aGVsbG8=",
          ParsedDoc := none }], true, false, some false⟩ :=
  c6_postprocessing_failures srvEnvDegraded [123, 125]
    ⟨false, "abc", "out.bin", true⟩ "aGVsbG8=" "disk full" "invalid character"
    rfl rfl rfl (by decide) rfl rfl rfl

/-- C7 counterexample: on a connection that closes without sending any
bytes, `conn.Read` returns `0, io.EOF` and the handler DOES send a
protocol-error response (main.go lines 224-228 call `sendErrorResponse`
on every read error), refuting the claim that a zero-byte read is treated
as silent connection teardown. -/
theorem c7_counterexample :
    (handleClient srvEnvEOF).sent =
      [sendErrorResponse "读取客户端数据失败: EOF"] ∧
    (handleClient srvEnvEOF).sent ≠ [] :=
  ⟨rfl, by decide⟩

/-- C7 (amended): when the initial read fails — including the zero-byte
`EOF` of a peer that closed without sending — the handler sends one error
response reporting the read failure, closes the connection and does not
crash. -/
theorem c7_read_failure_sends_error (env : SrvEnv) (e : String)
    (h : env.readResult = .error e) :
    handleClient env =
      ⟨[sendErrorResponse ("读取客户端数据失败: " ++ e)], true, false, none⟩ := by
  simp [handleClient, h]

/-- C7 witness: the zero-byte-read sample session. -/
theorem c7_witness :
    handleClient srvEnvEOF =
      ⟨[sendErrorResponse ("读取客户端数据失败: " ++ "EOF")], true, false, none⟩ :=
  c7_read_failure_sends_error srvEnvEOF "EOF" rfl

/-- C8: a CLI-server request with a non-empty public key base64-decodes
the key, writes it to the newly created temporary file, passes that file's
path to `nsm-cli` right after `--public-key`, and the deferred remove
deletes the file after the subprocess completes — the environment leaves
the subprocess result free, so the conclusion covers both its success and
its failure. -/
theorem c8_public_key_tempfile (env : CliServer.CliSrvEnv) (bs : List Nat)
    (args : CliServer.CliArgs) (p : String) (der : List Nat)
    (h1 : env.readResult = .ok bs)
    (h2 : env.unmarshalArgs bs = .ok args)
    (h3 : args.PublicKey ≠ "")
    (h4 : env.tmpCreate = .ok p)
    (h5 : env.b64Decode args.PublicKey = .ok der)
    (h6 : env.tmpWriteOk = true)
    (h7 : env.tmpCloseOk = true) :
    (CliServer.handleClient env).invoked =
      some (CliServer.withNonce args
        (CliServer.withUserData args ["attest"] ++ ["--public-key", p])) ∧
    (CliServer.handleClient env).tmpCreated = some p ∧
    (CliServer.handleClient env).tmpRemoved = some p := by
  have key : ∀ (cmdArgs : List String) (c r : Option String),
      (CliServer.runAttest env cmdArgs c r).invoked = some cmdArgs ∧
      (CliServer.runAttest env cmdArgs c r).tmpCreated = c ∧
      (CliServer.runAttest env cmdArgs c r).tmpRemoved = r := by
    intro cmdArgs c r
    unfold CliServer.runAttest
    cases env.runNsmCli cmdArgs <;> simp
  have hh : CliServer.handleClient env =
      CliServer.runAttest env
        (CliServer.withNonce args
          (CliServer.withUserData args ["attest"] ++ ["--public-key", p]))
        (some p) (some p) := by
    simp [CliServer.handleClient, h1, h2, h3, h4, h5, h6, h7]
  rw [hh]
  exact key _ _ _

/-- C8 witness: the sample CLI-server session whose subprocess fails; the
temporary file is still removed and the path was passed after
`--public-key`. -/
theorem c8_witness :
    (CliServer.handleClient cliEnvSample).invoked =
      some ["attest", "--user-data", "ud", "--public-key",
            "/tmp/pubkey-123.der", "--nonce", "n1"] ∧
    (CliServer.handleClient cliEnvSample).tmpCreated = some "/tmp/pubkey-123.der" ∧
    (CliServer.handleClient cliEnvSample).tmpRemoved = some "/tmp/pubkey-123.der" :=
  c8_public_key_tempfile cliEnvSample [123] ⟨"ud", "QUJD", "n1"⟩
    "/tmp/pubkey-123.der" [65, 66, 67] rfl rfl (by decide) rfl rfl rfl rfl

/-- C9: a client-side key file whose content is PEM-armored (contains the
`PUBLIC KEY` header) is decoded to its DER block and that block is
base64-encoded for the wire value; any other content is base64-encoded
directly — the wire value is always base64 of raw bytes, never the PEM
text. -/
theorem c9_public_key_branches (env : ClientEnv) (pk pk2 der : List Nat)
    (h1 : containsSub pemHeaderBytes pk = true)
    (h2 : env.pemDecode pk = some der)
    (h3 : containsSub pemHeaderBytes pk2 = false) :
    clientPublicKeyContent env pk = .ok (env.b64Encode der) ∧
    clientPublicKeyContent env pk2 = .ok (env.b64Encode pk2) := by
  refine ⟨?_, ?_⟩
  · simp [clientPublicKeyContent, h1, h2]
  · simp [clientPublicKeyContent, h3]

/-- C9 witness: a file equal to the PEM header itself (decoded via the
sample PEM oracle) and the non-PEM file `[1, 2, 3]`. -/
theorem c9_witness :
    clientPublicKeyContent clientEnvSample pemHeaderBytes = .ok "MDE=" ∧
    clientPublicKeyContent clientEnvSample [1, 2, 3] = .ok "MDE=" :=
  c9_public_key_branches clientEnvSample pemHeaderBytes [1, 2, 3] [48, 49]
    (by decide) rfl (by decide)

/-- C10: a nonce longer than 64 bytes is silently truncated to its first
64 bytes: the encoder still produces a well-formed frame (no error), whose
nonce field is `nonce.take 64`, with no indication of truncation. -/
theorem c10_long_nonce_truncated (nonce : List Nat) (h : 64 < nonce.length) :
    parseRequestFrame (encodeRequest nonce) =
      some ⟨nsmCmdGetAttestationDoc, attestationDocRequestSize, 1,
            nonce.take 64⟩ := by
  rw [parseRequestFrame_encodeRequest, requestNonceField_eq_take nonce h]

/-- C10 witness: a 65-byte nonce of sevens, truncated to 64 sevens. -/
theorem c10_witness :
    parseRequestFrame (encodeRequest (List.replicate 65 7)) =
      some ⟨nsmCmdGetAttestationDoc, attestationDocRequestSize, 1,
            List.replicate 64 7⟩ :=
  c10_long_nonce_truncated (List.replicate 65 7) (by decide)
